import Mathlib

/-!
Verification of the spotify-cli command-line client (src/spotify_cli.py).

The Python program is shallowly embedded: every remote call the program can
make is represented by an `ApiCall` value, user-visible text by `List String`
(one element per `print` call, embedded newlines kept), and the network and
the interactive user are modelled as explicit inputs (a `World` of responses).
A Python exception escaping a method is an `exc` field / `Except.error`;
`main`'s catch-all converts it into a formatted message and exit code 1.
-/

namespace SpotifyCli

/-- A playback device as returned by the devices endpoint. -/
structure Device where
  name : String
  type : String
  id : String
  is_active : Bool
  deriving DecidableEq, Repr

/-- One outbound API call made by the program. -/
inductive ApiCall
  | devicesCall
  | startPlayback (uris : Option (List String))
  | pausePlayback
  | nextTrackCall
  | previousTrackCall
  | setVolume (level : Int)
  | searchCall (query : String) (searchType : String) (limit : Int)
  | currentUserPlaylists (limit : Int)
  | playlistCall (uri : String)
  | currentPlaybackCall
  | currentUserTopTracks (limit : Int) (timeRange : String)
  deriving DecidableEq, Repr

/-- Result of `SpotifyCLI.check_active_device` on a successful devices call:
the API calls it made, the lines it printed, whether it opened the web
player in a browser, and the returned boolean. -/
structure GuardResult where
  calls : List ApiCall
  output : List String
  openedWebPlayer : Bool
  result : Bool
  deriving DecidableEq, Repr

/-- The five prints of the no-devices branch of `check_active_device`. -/
def noDevicesText : List String :=
  ["❌ No Spotify devices found!",
   "\n💡 To use Spotify CLI, you need to:",
   "   1. Open Spotify Desktop App, or",
   "   2. Open Spotify on your phone, or",
   "   3. Open Spotify Web Player"]

/-- The prints of the devices-exist-but-none-active branch of
`check_active_device`. -/
def noneActiveText (devs : List Device) : List String :=
  "⚠️  Spotify devices found but none are active:" ::
  devs.map (fun d => "   • " ++ d.name ++ " (" ++ d.type ++ ")") ++
  ["\n💡 Open Spotify on one of these devices and start playing something first."]

/-- Body of `SpotifyCLI.check_active_device` after `self.sp.devices()`
returned the device list `devs`. `userResponse` is what `input()` returns
when the method prompts. -/
def check_active_device_core (devs : List Device) (auto_open : Bool)
    (userResponse : String) : GuardResult :=
  if devs.isEmpty then
    if auto_open then
      if userResponse.toLower == "y" || userResponse.toLower == "yes" then
        { calls := [ApiCall.devicesCall],
          output := noDevicesText ++
            ["\n🌐 Would you like to open Spotify Web Player? (y/n): ",
             "\n✅ Web player opened! Wait a moment for it to load, then try your command again."],
          openedWebPlayer := true,
          result := false }
      else
        { calls := [ApiCall.devicesCall],
          output := noDevicesText ++
            ["\n🌐 Would you like to open Spotify Web Player? (y/n): "],
          openedWebPlayer := false,
          result := false }
    else
      { calls := [ApiCall.devicesCall],
        output := noDevicesText ++
          ["\n💡 Tip: Use \x27spotify play --open\x27 to automatically open web player"],
        openedWebPlayer := false,
        result := false }
  else
    let active_devices := devs.filter (fun d => d.is_active)
    if active_devices.isEmpty then
      { calls := [ApiCall.devicesCall],
        output := noneActiveText devs,
        openedWebPlayer := false,
        result := false }
    else
      { calls := [ApiCall.devicesCall],
        output := [],
        openedWebPlayer := false,
        result := true }

/-- `SpotifyCLI.check_active_device`: the `self.sp.devices()` call may raise
(`Except.error`), otherwise the core branches on the returned list. -/
def check_active_device (devicesResp : Except String (List Device))
    (auto_open : Bool) (userResponse : String) : Except String GuardResult :=
  devicesResp.map (fun devs => check_active_device_core devs auto_open userResponse)

/-- The formatted message the program prints for a caught exception `e`. -/
def errLine (e : String) : String := "❌ Error: " ++ e

/-- Effects of running one command method: API calls attempted, lines
printed, and the message of an uncaught Python exception, if one escaped. -/
structure Outcome where
  calls : List ApiCall
  output : List String
  exc : Option String
  deriving DecidableEq, Repr

/-- `for i, x in enumerate(xs, start)` emitting `f i x` lines per element. -/
def enumLines (f : Nat → α → List String) : Nat → List α → List String
  | _, [] => []
  | i, x :: xs => f i x ++ enumLines f (i + 1) xs

/-- `', '.join(names)`. -/
def joinArtists (names : List String) : String := String.intercalate ", " names

/-- Zero-padded two-digit rendering, Python `:02d` for values below 100. -/
def pad2 (n : Nat) : String := if n < 10 then "0" ++ toString n else toString n

/-- Split a character list into groups of three, left to right. -/
def chunk3 : List Char → List (List Char)
  | [] => []
  | [a] => [[a]]
  | [a, b] => [[a, b]]
  | a :: b :: c :: rest => [a, b, c] :: chunk3 rest

/-- Python `:,` formatting of a nonnegative integer: thousands separators. -/
def commaFmt (n : Nat) : String :=
  String.intercalate ","
    (((chunk3 (toString n).data.reverse).map (fun g => String.mk g.reverse)).reverse)

/-- A track inside a playback state or a playlist item. -/
structure Track where
  name : String
  artists : List String
  deriving DecidableEq, Repr

/-- The currently playing item of `sp.current_playback()`. -/
structure PlaybackItem where
  name : String
  artists : List String
  album : String
  duration_ms : Nat
  deriving DecidableEq, Repr

/-- Playback state returned by `sp.current_playback()`. -/
structure Playback where
  item : Option PlaybackItem
  progress_ms : Nat
  is_playing : Bool
  device : Option String
  deriving DecidableEq, Repr

/-- A track in search results. -/
structure SearchTrack where
  name : String
  artists : List String
  uri : String
  deriving DecidableEq, Repr

/-- An artist in search results. -/
structure SearchArtist where
  name : String
  followers : Nat
  uri : String
  deriving DecidableEq, Repr

/-- An album in search results. -/
structure SearchAlbum where
  name : String
  artists : List String
  release_date : String
  uri : String
  deriving DecidableEq, Repr

/-- The three item lists of a `sp.search` response. -/
structure SearchResults where
  tracks : List SearchTrack
  artists : List SearchArtist
  albums : List SearchAlbum
  deriving DecidableEq, Repr

/-- One playlist of `sp.current_user_playlists`. -/
structure PlaylistInfo where
  name : String
  tracksTotal : Nat
  uri : String
  deriving DecidableEq, Repr

/-- A playlist of `sp.playlist`: `items` holds one entry per playlist item,
`none` when the item has a null `track` field. -/
structure Playlist where
  name : String
  items : List (Option Track)
  deriving DecidableEq, Repr

/-- All responses the remote service and the interactive user can give in
one invocation: each field is consumed by at most one command. -/
structure World where
  devicesResp : Except String (List Device)
  userResponse : String
  startPlaybackResp : Except String Unit
  pauseResp : Except String Unit
  nextResp : Except String Unit
  prevResp : Except String Unit
  volumeResp : Except String Unit
  currentResp : Except String (Option Playback)
  searchResp : Except String SearchResults
  playlistsResp : Except String (List PlaylistInfo)
  playlistResp : Except String Playlist
  topResp : Except String (List Track)

/-- `SpotifyCLI.play`: Device Guard first (outside the try block), then at
most one `start_playback` call whose failure is caught and printed. -/
def play (w : World) (uri : Option String) (auto_open : Bool) : Outcome :=
  match check_active_device w.devicesResp auto_open w.userResponse with
  | .error e => { calls := [ApiCall.devicesCall], output := [], exc := some e }
  | .ok g =>
    if g.result then
      match uri with
      | some u =>
        match w.startPlaybackResp with
        | .ok _ =>
          { calls := g.calls ++ [ApiCall.startPlayback (some [u])],
            output := g.output ++ ["▶️  Playing track"], exc := none }
        | .error e =>
          { calls := g.calls ++ [ApiCall.startPlayback (some [u])],
            output := g.output ++ [errLine e], exc := none }
      | none =>
        match w.startPlaybackResp with
        | .ok _ =>
          { calls := g.calls ++ [ApiCall.startPlayback none],
            output := g.output ++ ["▶️  Playback resumed"], exc := none }
        | .error e =>
          { calls := g.calls ++ [ApiCall.startPlayback none],
            output := g.output ++ [errLine e], exc := none }
    else
      { calls := g.calls, output := g.output, exc := none }

/-- `SpotifyCLI.pause`: one call, failures caught and printed. -/
def pause (w : World) : Outcome :=
  match w.pauseResp with
  | .ok _ => { calls := [ApiCall.pausePlayback], output := ["⏸️  Playback paused"], exc := none }
  | .error e => { calls := [ApiCall.pausePlayback], output := [errLine e], exc := none }

/-- `SpotifyCLI.next_track`: one call, failures caught and printed. -/
def next_track (w : World) : Outcome :=
  match w.nextResp with
  | .ok _ => { calls := [ApiCall.nextTrackCall], output := ["⏭️  Skipped to next track"], exc := none }
  | .error e => { calls := [ApiCall.nextTrackCall], output := [errLine e], exc := none }

/-- `SpotifyCLI.previous_track`: one call, failures caught and printed. -/
def previous_track (w : World) : Outcome :=
  match w.prevResp with
  | .ok _ => { calls := [ApiCall.previousTrackCall], output := ["⏮️  Back to previous track"], exc := none }
  | .error e => { calls := [ApiCall.previousTrackCall], output := [errLine e], exc := none }

/-- `SpotifyCLI.volume`: the input level is clamped to [0, 100] before the
remote call; failures of the call are caught and printed. -/
def volume (w : World) (level : Int) : Outcome :=
  let lvl := max 0 (min 100 level)
  match w.volumeResp with
  | .ok _ =>
    { calls := [ApiCall.setVolume lvl],
      output := ["🔊 Volume set to " ++ toString lvl ++ "%"], exc := none }
  | .error e => { calls := [ApiCall.setVolume lvl], output := [errLine e], exc := none }

/-- `SpotifyCLI.current_playback`: render the current playback state;
uncaught failures escape to `main`. -/
def current_playback (w : World) : Outcome :=
  match w.currentResp with
  | .error e => { calls := [ApiCall.currentPlaybackCall], output := [], exc := some e }
  | .ok current =>
    match current with
    | none =>
      { calls := [ApiCall.currentPlaybackCall],
        output := ["❌ Nothing is currently playing"], exc := none }
    | some cur =>
      match cur.item with
      | none =>
        { calls := [ApiCall.currentPlaybackCall],
          output := ["❌ Nothing is currently playing"], exc := none }
      | some track =>
        let progress := cur.progress_ms / 1000
        let duration := track.duration_ms / 1000
        { calls := [ApiCall.currentPlaybackCall],
          output :=
            ["\n🎵 Now " ++ (if cur.is_playing then "Playing" else "Paused") ++ ":",
             "   Track: " ++ track.name,
             "   Artist: " ++ joinArtists track.artists,
             "   Album: " ++ track.album,
             "   Progress: " ++ toString (progress / 60) ++ ":" ++ pad2 (progress % 60) ++
               " / " ++ toString (duration / 60) ++ ":" ++ pad2 (duration % 60)] ++
            (match cur.device with
             | some d => ["   Device: " ++ d]
             | none => []),
          exc := none }

/-- `SpotifyCLI.search`: one search call, then a rendering that depends on
the requested type; uncaught failures escape to `main`. -/
def search (w : World) (query : String) (searchType : String) (limit : Int) : Outcome :=
  match w.searchResp with
  | .error e =>
    { calls := [ApiCall.searchCall query searchType limit], output := [], exc := some e }
  | .ok results =>
    let body : List String :=
      if searchType == "track" then
        if results.tracks.isEmpty then ["❌ No tracks found"]
        else
          ("\n🔍 Search results for \x27" ++ query ++ "\x27:\n") ::
          enumLines (fun i t =>
            [toString i ++ ". " ++ t.name ++ " - " ++ joinArtists t.artists,
             "   URI: " ++ t.uri ++ "\n"]) 1 results.tracks
      else if searchType == "artist" then
        if results.artists.isEmpty then ["❌ No artists found"]
        else
          ("\n🔍 Artist results for \x27" ++ query ++ "\x27:\n") ::
          enumLines (fun i a =>
            [toString i ++ ". " ++ a.name,
             "   Followers: " ++ commaFmt a.followers,
             "   URI: " ++ a.uri ++ "\n"]) 1 results.artists
      else if searchType == "album" then
        if results.albums.isEmpty then ["❌ No albums found"]
        else
          ("\n🔍 Album results for \x27" ++ query ++ "\x27:\n") ::
          enumLines (fun i a =>
            [toString i ++ ". " ++ a.name ++ " - " ++ joinArtists a.artists,
             "   Release: " ++ a.release_date,
             "   URI: " ++ a.uri ++ "\n"]) 1 results.albums
      else []
    { calls := [ApiCall.searchCall query searchType limit], output := body, exc := none }

/-- `SpotifyCLI.my_playlists`: one call, header plus one numbered block per
playlist; uncaught failures escape to `main`. -/
def my_playlists (w : World) (limit : Int) : Outcome :=
  match w.playlistsResp with
  | .error e => { calls := [ApiCall.currentUserPlaylists limit], output := [], exc := some e }
  | .ok pls =>
    { calls := [ApiCall.currentUserPlaylists limit],
      output :=
        "\n📚 Your Playlists:\n" ::
        enumLines (fun i p =>
          [toString i ++ ". " ++ p.name,
           "   Tracks: " ++ toString p.tracksTotal,
           "   URI: " ++ p.uri ++ "\n"]) 1 pls,
      exc := none }

/-- The line `playlist_tracks` prints for a non-null item in position `i`
(1-based over all items). -/
def playlistTrackLine (i : Nat) (t : Track) : String :=
  toString i ++ ". " ++ t.name ++ " - " ++ joinArtists t.artists

/-- `SpotifyCLI.playlist_tracks`: one call, then `enumerate(items, 1)` with
null tracks skipped; uncaught failures escape to `main`. -/
def playlist_tracks (w : World) (playlist_uri : String) : Outcome :=
  match w.playlistResp with
  | .error e => { calls := [ApiCall.playlistCall playlist_uri], output := [], exc := some e }
  | .ok pl =>
    { calls := [ApiCall.playlistCall playlist_uri],
      output :=
        ("\n📚 " ++ pl.name ++ "\n") ::
        enumLines (fun i item =>
          match item with
          | some t => [playlistTrackLine i t]
          | none => []) 1 pl.items,
      exc := none }

/-- `SpotifyCLI.devices`: one devices call; empty list prints a message and
returns; uncaught failures escape to `main`. -/
def devices (w : World) : Outcome :=
  match w.devicesResp with
  | .error e => { calls := [ApiCall.devicesCall], output := [], exc := some e }
  | .ok devs =>
    if devs.isEmpty then
      { calls := [ApiCall.devicesCall], output := ["❌ No devices found"], exc := none }
    else
      { calls := [ApiCall.devicesCall],
        output :=
          "\n📱 Available Devices:\n" ::
          devs.flatMap (fun d =>
            ["[" ++ (if d.is_active then "✓" else " ") ++ "] " ++ d.name ++ " (" ++ d.type ++ ")",
             "    ID: " ++ d.id ++ "\n"]),
        exc := none }

/-- The display name of a top-tracks time range (`range_names.get`). -/
def rangeName (time_range : String) : String :=
  if time_range == "short_term" then "Last 4 Weeks"
  else if time_range == "medium_term" then "Last 6 Months"
  else if time_range == "long_term" then "All Time"
  else time_range

/-- `SpotifyCLI.top_tracks`: one call plus a numbered rendering; uncaught
failures escape to `main`. -/
def top_tracks (w : World) (limit : Int) (time_range : String) : Outcome :=
  match w.topResp with
  | .error e =>
    { calls := [ApiCall.currentUserTopTracks limit time_range], output := [], exc := some e }
  | .ok items =>
    { calls := [ApiCall.currentUserTopTracks limit time_range],
      output :=
        ("\n🌟 Your Top Tracks (" ++ rangeName time_range ++ "):\n") ::
        enumLines (fun i t => [toString i ++ ". " ++ t.name ++ " - " ++ joinArtists t.artists])
          1 items,
      exc := none }

/-- A successfully parsed subcommand with its arguments (argparse output). -/
inductive Cmd
  | now
  | playCmd (uri : Option String) (openFlag : Bool)
  | pauseCmd
  | nextCmd
  | prevCmd
  | volumeCmd (level : Int)
  | searchCmd (query : String) (searchType : String) (limit : Int)
  | playlistsCmd (limit : Int)
  | playlistCmd (uri : String)
  | devicesCmd
  | topCmd (limit : Int) (range : String)
  deriving DecidableEq, Repr

/-- Process environment as `main` sees it: the two credential variables
(`none` when unset) and the expanded home directory. -/
structure Env where
  clientId : Option String
  clientSecret : Option String
  home : String
  deriving DecidableEq, Repr

/-- Python truthiness of `os.getenv`: `not os.getenv(v)` holds when the
variable is unset or set to the empty string. -/
def envFalsy : Option String → Bool
  | none => true
  | some s => s.isEmpty

/-- The condition of `main`'s credential check. -/
def credentialsMissing (env : Env) : Bool :=
  envFalsy env.clientId || envFalsy env.clientSecret

/-- The seven prints of `main`'s missing-credentials branch. -/
def configErrorText (env : Env) : List String :=
  ["❌ Error: Spotify credentials not found!",
   "\nCreate a .spotify-cli.env file in your home directory with:",
   "SPOTIFY_CLIENT_ID=your_client_id",
   "SPOTIFY_CLIENT_SECRET=your_client_secret",
   "SPOTIFY_REDIRECT_URI=http://localhost:8888/callback",
   "\nLocation: " ++ env.home ++ "/.spotify-cli.env",
   "\nGet credentials at: https://developer.spotify.com/dashboard"]

/-- Stand-in for the argparse-generated `parser.print_help()` text. -/
def usageText : String := "usage: spotify_cli.py [-h] \x7bnow,play,pause,next,prev,volume,search,playlists,playlist,devices,top\x7d ..."

/-- The command dispatch chain of `main` (after `cli = SpotifyCLI()`). -/
def dispatch (c : Cmd) (w : World) : Outcome :=
  match c with
  | .now => current_playback w
  | .playCmd uri openFlag => play w uri openFlag
  | .pauseCmd => pause w
  | .nextCmd => next_track w
  | .prevCmd => previous_track w
  | .volumeCmd level => volume w level
  | .searchCmd query searchType limit => search w query searchType limit
  | .playlistsCmd limit => my_playlists w limit
  | .playlistCmd uri => playlist_tracks w uri
  | .devicesCmd => devices w
  | .topCmd limit range => top_tracks w limit (range ++ "_term")

/-- What one whole invocation of `main` did: output, process exit code,
whether the `SpotifyCLI` client (and its OAuth manager) was constructed,
and the API calls attempted. -/
structure MainResult where
  output : List String
  exitCode : Nat
  constructedClient : Bool
  calls : List ApiCall
  deriving DecidableEq, Repr

/-- `main` for a parsed invocation: no command prints usage and returns
(exit 0); missing credentials print the configuration error and exit 1
before the client is constructed; otherwise the command runs and a caught
exception is printed with exit 1. -/
def mainRun (cmd : Option Cmd) (env : Env) (w : World) : MainResult :=
  match cmd with
  | none =>
    { output := [usageText], exitCode := 0, constructedClient := false, calls := [] }
  | some c =>
    if credentialsMissing env then
      { output := configErrorText env, exitCode := 1, constructedClient := false, calls := [] }
    else
      let o := dispatch c w
      match o.exc with
      | none =>
        { output := o.output, exitCode := 0, constructedClient := true, calls := o.calls }
      | some e =>
        { output := o.output ++ [errLine e], exitCode := 1,
          constructedClient := true, calls := o.calls }

/-- Which environment file the module-level startup code loads. -/
inductive EnvFile
  | cwdDotEnv (cwd : String)
  | homeSpotifyCliEnv (home : String)
  deriving DecidableEq, Repr

/-- The filesystem facts the startup code consults in one invocation. -/
structure Invocation where
  home : String
  cwd : String
  cwdHasDotEnv : Bool
  deriving DecidableEq, Repr

/-- Module-level env loading: `.env` in the current working directory when
it exists, otherwise `~/.spotify-cli.env`; exactly one file is loaded. -/
def envFilesLoaded (inv : Invocation) : List EnvFile :=
  if inv.cwdHasDotEnv then [EnvFile.cwdDotEnv inv.cwd]
  else [EnvFile.homeSpotifyCliEnv inv.home]

/-- `cache_path` in `SpotifyCLI.__init__`: always under the home directory. -/
def cachePath (inv : Invocation) : String :=
  inv.home ++ "/.spotify-cli-cache"

/-- Outcome of one HTTP attempt inside the API client. -/
inductive AttemptResult
  | ok
  | authFailure
  | otherFailure
  deriving DecidableEq, Repr

/-- Errors the API client surfaces to its caller. -/
inductive CallError
  | unauthorized
  | apiError
  deriving DecidableEq, Repr

/-- Tally of one `call`: attempts made, token refreshes forced, result. -/
structure CallResult where
  attempts : Nat
  refreshes : Nat
  result : Except CallError Unit
  deriving Repr

/-- Modelled from the spec: the retry behaviour of `API Client.call` is
implemented inside the spotipy dependency, which `SpotifyCLI.__init__` only
configures; it is not part of this repository. Per spec §4.3, on an
authorization failure the client forces exactly one refresh-and-retry, and
a second authorization failure is surfaced as `Unauthorized` with no third
attempt. `responses n` is the outcome the remote service would give to
attempt `n`. -/
def apiClientCall (responses : Nat → AttemptResult) : CallResult :=
  match responses 0 with
  | .ok => { attempts := 1, refreshes := 0, result := .ok () }
  | .otherFailure => { attempts := 1, refreshes := 0, result := .error CallError.apiError }
  | .authFailure =>
    match responses 1 with
    | .ok => { attempts := 2, refreshes := 1, result := .ok () }
    | .otherFailure => { attempts := 2, refreshes := 1, result := .error CallError.apiError }
    | .authFailure => { attempts := 2, refreshes := 1, result := .error CallError.unauthorized }

/-- An inactive device used in concrete instantiations. -/
def phoneDevice : Device :=
  { name := "Phone", type := "Smartphone", id := "d1", is_active := false }

/-- A benign world: every response succeeds. -/
def baseWorld : World :=
  { devicesResp := .ok [phoneDevice],
    userResponse := "",
    startPlaybackResp := .ok (),
    pauseResp := .ok (),
    nextResp := .ok (),
    prevResp := .ok (),
    volumeResp := .ok (),
    currentResp := .ok none,
    searchResp := .ok { tracks := [], artists := [], albums := [] },
    playlistsResp := .ok [],
    playlistResp := .ok { name := "P", items := [] },
    topResp := .ok [] }

/-- An environment with both credentials set. -/
def envOk : Env := { clientId := some "id", clientSecret := some "secret", home := "/home/user" }

/-- An environment with both credential variables unset. -/
def envNoCreds : Env := { clientId := none, clientSecret := none, home := "/home/user" }

/-- A playlist whose second item has a null track. -/
def plSample : Playlist :=
  { name := "P", items := [some { name := "A", artists := ["x"] }, none,
                           some { name := "B", artists := ["y", "z"] }] }

/-- C1: when the device list is nonempty but no device is active, `play`
makes only the single devices call, never calls the playback-start
endpoint, prints exactly the remediation text, and returns normally. -/
theorem C1_play_none_active_never_starts_playback (w : World) (devs : List Device)
    (uri : Option String) (auto_open : Bool)
    (hresp : w.devicesResp = Except.ok devs)
    (hne : devs ≠ [])
    (hnone : ∀ d ∈ devs, d.is_active = false) :
    (play w uri auto_open).calls = [ApiCall.devicesCall] ∧
    (∀ us, ApiCall.startPlayback us ∉ (play w uri auto_open).calls) ∧
    (play w uri auto_open).output = noneActiveText devs ∧
    (play w uri auto_open).exc = none := by
  have hempty : devs.isEmpty = false := by
    cases devs with
    | nil => exact absurd rfl hne
    | cons a l => rfl
  have hfilter : devs.filter (fun d => d.is_active) = [] := by
    rw [List.filter_eq_nil_iff]
    intro a ha
    simp [hnone a ha]
  simp [play, check_active_device, hresp, Except.map, check_active_device_core,
        hempty, hfilter]

/-- C1 witness: a single inactive device. -/
theorem C1_play_none_active_never_starts_playback_witness :
    (play baseWorld none false).calls = [ApiCall.devicesCall] ∧
    (∀ us, ApiCall.startPlayback us ∉ (play baseWorld none false).calls) ∧
    (play baseWorld none false).output = noneActiveText [phoneDevice] ∧
    (play baseWorld none false).exc = none :=
  C1_play_none_active_never_starts_playback baseWorld [phoneDevice] none false rfl
    (by simp) (by decide)

/-- C2: the level sent to the remote volume endpoint is always
`max 0 (min 100 level)`; in particular -5 is sent as 0, 150 as 100 and 50
unchanged. -/
theorem C2_volume_sends_clamped_level (w : World) (level : Int) :
    (volume w level).calls = [ApiCall.setVolume (max 0 (min 100 level))] ∧
    (volume w (-5)).calls = [ApiCall.setVolume 0] ∧
    (volume w 150).calls = [ApiCall.setVolume 100] ∧
    (volume w 50).calls = [ApiCall.setVolume 50] := by
  cases h : w.volumeResp <;> simp [volume, h]

/-- C5: with `auto_open` set and no devices, the guard returns failure and
makes exactly one devices call whatever the user answers; the web player is
opened exactly when the lowered answer is y or yes, and opening it does not
change the returned failure or add a second devices call. -/
theorem C5_auto_open_still_fails (userResponse : String) :
    (check_active_device_core [] true userResponse).result = false ∧
    (check_active_device_core [] true userResponse).calls = [ApiCall.devicesCall] ∧
    (check_active_device_core [] true userResponse).openedWebPlayer =
      (userResponse.toLower == "y" || userResponse.toLower == "yes") := by
  cases h : (userResponse.toLower == "y" || userResponse.toLower == "yes") <;>
    simp [check_active_device_core, h]

/-- C3: with a command given and one of the credential variables unset,
`main` prints the configuration error and exits with code 1 without
constructing the client and without any API call, whatever the command. -/
theorem C3_missing_credentials_fatal (c : Cmd) (env : Env) (w : World)
    (h : env.clientId = none ∨ env.clientSecret = none) :
    (mainRun (some c) env w).output = configErrorText env ∧
    (mainRun (some c) env w).exitCode = 1 ∧
    (mainRun (some c) env w).constructedClient = false ∧
    (mainRun (some c) env w).calls = [] := by
  have hcred : credentialsMissing env = true := by
    rcases h with h | h <;> simp [credentialsMissing, envFalsy, h]
  simp [mainRun, hcred]

/-- C3 witness: the pause command with both variables unset. -/
theorem C3_missing_credentials_fatal_witness :
    (mainRun (some Cmd.pauseCmd) envNoCreds baseWorld).output = configErrorText envNoCreds ∧
    (mainRun (some Cmd.pauseCmd) envNoCreds baseWorld).exitCode = 1 ∧
    (mainRun (some Cmd.pauseCmd) envNoCreds baseWorld).constructedClient = false ∧
    (mainRun (some Cmd.pauseCmd) envNoCreds baseWorld).calls = [] :=
  C3_missing_credentials_fatal Cmd.pauseCmd envNoCreds baseWorld (Or.inl rfl)

/-- C4: the devices command on an empty device list prints the no-devices
message, makes exactly the one device-listing call, and exits with 0. -/
theorem C4_devices_empty_list (env : Env) (w : World)
    (hcred : credentialsMissing env = false)
    (hdev : w.devicesResp = Except.ok []) :
    (mainRun (some Cmd.devicesCmd) env w).output = ["❌ No devices found"] ∧
    (mainRun (some Cmd.devicesCmd) env w).calls = [ApiCall.devicesCall] ∧
    (mainRun (some Cmd.devicesCmd) env w).exitCode = 0 := by
  simp [mainRun, hcred, dispatch, devices, hdev]

/-- C4 witness: valid credentials and an empty device list. -/
theorem C4_devices_empty_list_witness :
    (mainRun (some Cmd.devicesCmd) envOk { baseWorld with devicesResp := Except.ok [] }).output
      = ["❌ No devices found"] ∧
    (mainRun (some Cmd.devicesCmd) envOk { baseWorld with devicesResp := Except.ok [] }).calls
      = [ApiCall.devicesCall] ∧
    (mainRun (some Cmd.devicesCmd) envOk { baseWorld with devicesResp := Except.ok [] }).exitCode
      = 0 :=
  C4_devices_empty_list envOk { baseWorld with devicesResp := Except.ok [] } rfl rfl

/-- C6 counterexample: with valid credentials, a runtime error in the
playlists API call makes the process exit with code 1, not 0; the error is
still printed as a formatted message. -/
theorem C6_playlists_failure_exits_one :
    (mainRun (some (Cmd.playlistsCmd 20)) envOk
      { baseWorld with playlistsResp := Except.error "API error" }).exitCode = 1 ∧
    (mainRun (some (Cmd.playlistsCmd 20)) envOk
      { baseWorld with playlistsResp := Except.error "API error" }).output
      = [errLine "API error"] := by
  constructor <;> rfl

/-- C6 amended: the playlists command exits 0 on success; a runtime error
during the playlists API call is printed as a formatted message and the
process exits with code 1 (the error escapes to the catch-all in `main`,
which calls `sys.exit(1)`). -/
theorem C6_playlists_exit_codes (env : Env) (w : World) (limit : Int)
    (hcred : credentialsMissing env = false) :
    (∀ pls, w.playlistsResp = Except.ok pls →
      (mainRun (some (Cmd.playlistsCmd limit)) env w).exitCode = 0) ∧
    (∀ e, w.playlistsResp = Except.error e →
      (mainRun (some (Cmd.playlistsCmd limit)) env w).exitCode = 1 ∧
      (mainRun (some (Cmd.playlistsCmd limit)) env w).output = [errLine e]) := by
  constructor
  · intro pls hresp
    simp [mainRun, hcred, dispatch, my_playlists, hresp]
  · intro e hresp
    simp [mainRun, hcred, dispatch, my_playlists, hresp]

/-- C6 witness: a concrete failing playlists call. -/
theorem C6_playlists_exit_codes_witness :
    (mainRun (some (Cmd.playlistsCmd 20)) envOk
      { baseWorld with playlistsResp := Except.error "boom" }).exitCode = 1 ∧
    (mainRun (some (Cmd.playlistsCmd 20)) envOk
      { baseWorld with playlistsResp := Except.error "boom" }).output = [errLine "boom"] :=
  (C6_playlists_exit_codes envOk
    { baseWorld with playlistsResp := Except.error "boom" } 20 rfl).2 "boom" rfl

/-- C7: the API client never makes more than two attempts; on an
authorization failure it forces exactly one refresh-and-retry, and a second
authorization failure is surfaced as Unauthorized with no third attempt. -/
theorem C7_retry_at_most_once (responses : Nat → AttemptResult) :
    (apiClientCall responses).attempts ≤ 2 ∧
    (responses 0 = AttemptResult.authFailure →
      (apiClientCall responses).attempts = 2 ∧
      (apiClientCall responses).refreshes = 1 ∧
      (responses 1 = AttemptResult.authFailure →
        (apiClientCall responses).result = Except.error CallError.unauthorized)) := by
  cases h0 : responses 0 <;> cases h1 : responses 1 <;>
    simp [apiClientCall, h0, h1]

/-- C7 witness: a service that answers every attempt with an authorization
failure. -/
theorem C7_retry_at_most_once_witness :
    (apiClientCall (fun _ => AttemptResult.authFailure)).attempts = 2 ∧
    (apiClientCall (fun _ => AttemptResult.authFailure)).refreshes = 1 ∧
    (apiClientCall (fun _ => AttemptResult.authFailure)).result
      = Except.error CallError.unauthorized := by
  obtain ⟨-, h⟩ := C7_retry_at_most_once (fun _ => AttemptResult.authFailure)
  obtain ⟨h1, h2, h3⟩ := h rfl
  exact ⟨h1, h2, h3 rfl⟩

/-- C8: with no command, `main` prints usage and returns with exit code 0,
for every environment, in particular when both credentials are unset: the
no-command check precedes the credential check. -/
theorem C8_no_command_prints_usage (env : Env) (w : World) :
    mainRun none env w =
      { output := [usageText], exitCode := 0, constructedClient := false, calls := [] } :=
  rfl

/-- C9: invocations sharing a home directory always use the same token
cache path whatever their working directories; when the working directory
holds a `.env` it is the one file loaded and the home env file is ignored,
otherwise the home env file is loaded; so invocations from directories with
and without a `.env` load different credential files. -/
theorem C9_env_cwd_dependent_cache_fixed (i1 i2 : Invocation)
    (hhome : i1.home = i2.home) :
    cachePath i1 = cachePath i2 ∧
    (i1.cwdHasDotEnv = true →
      envFilesLoaded i1 = [EnvFile.cwdDotEnv i1.cwd] ∧
      EnvFile.homeSpotifyCliEnv i1.home ∉ envFilesLoaded i1) ∧
    (i1.cwdHasDotEnv = false →
      envFilesLoaded i1 = [EnvFile.homeSpotifyCliEnv i1.home]) ∧
    (i1.cwdHasDotEnv = true → i2.cwdHasDotEnv = false →
      envFilesLoaded i1 ≠ envFilesLoaded i2) := by
  refine ⟨by simp [cachePath, hhome], fun h1 => ?_, fun h1 => ?_, fun h1 h2 => ?_⟩
  · simp [envFilesLoaded, h1]
  · simp [envFilesLoaded, h1]
  · simp [envFilesLoaded, h1, h2]

/-- C9 witness: same home, one invocation with a local `.env` and one
without. -/
theorem C9_env_cwd_dependent_cache_fixed_witness :
    cachePath { home := "/home/user", cwd := "/a", cwdHasDotEnv := true }
      = cachePath { home := "/home/user", cwd := "/b", cwdHasDotEnv := false } ∧
    envFilesLoaded { home := "/home/user", cwd := "/a", cwdHasDotEnv := true }
      = [EnvFile.cwdDotEnv "/a"] ∧
    envFilesLoaded { home := "/home/user", cwd := "/a", cwdHasDotEnv := true }
      ≠ envFilesLoaded { home := "/home/user", cwd := "/b", cwdHasDotEnv := false } := by
  obtain ⟨hc, he, -, hd⟩ := C9_env_cwd_dependent_cache_fixed
    { home := "/home/user", cwd := "/a", cwdHasDotEnv := true }
    { home := "/home/user", cwd := "/b", cwdHasDotEnv := false } rfl
  exact ⟨hc, (he rfl).1, hd rfl rfl⟩

/-- The index-passing rendering loop with null items skipped equals a
filterMap over the enumerated list: each kept line carries the 1-based
position of its item among all items. -/
theorem enumLines_skip_none (g : Nat → Track → String) (n : Nat)
    (items : List (Option Track)) :
    enumLines (fun i item => match item with
      | some t => [g i t]
      | none => ([] : List String)) n items =
    (List.enumFrom n items).filterMap (fun p => p.2.map (fun t => g p.1 t)) := by
  induction items generalizing n with
  | nil => rfl
  | cons x xs ih =>
    cases x with
    | none =>
      simp only [enumLines, List.enumFrom_cons, List.filterMap_cons, Option.map_none,
        List.nil_append]
      exact ih (n + 1)
    | some t =>
      simp [enumLines, List.enumFrom_cons, List.filterMap_cons, ih (n + 1)]

/-- C10: for every playlist the rendered body lists exactly the items with
a non-null track, in their original order, each numbered by its 1-based
position among all items; null-track items produce no line. -/
theorem C10_null_tracks_skipped (w : World) (uri : String) (pl : Playlist)
    (hresp : w.playlistResp = Except.ok pl) :
    (playlist_tracks w uri).output =
      ("\n📚 " ++ pl.name ++ "\n") ::
        (List.enumFrom 1 pl.items).filterMap
          (fun p => p.2.map (fun t => playlistTrackLine p.1 t)) ∧
    (playlist_tracks w uri).exc = none := by
  constructor
  · simp only [playlist_tracks, hresp]
    rw [enumLines_skip_none playlistTrackLine 1 pl.items]
  · simp [playlist_tracks, hresp]

/-- C10 witness: a playlist with a null second item renders lines numbered
1 and 3. -/
theorem C10_null_tracks_skipped_witness :
    (playlist_tracks { baseWorld with playlistResp := Except.ok plSample } "u").output
      = ["\n📚 P\n", "1. A - x", "3. B - y, z"] ∧
    (playlist_tracks { baseWorld with playlistResp := Except.ok plSample } "u").exc = none := by
  have h := C10_null_tracks_skipped
    { baseWorld with playlistResp := Except.ok plSample } "u" plSample rfl
  exact ⟨by rw [h.1]; rfl, h.2⟩

end SpotifyCli
